import Mathlib

/-!
Shallow embedding of the decision engine of MMM-PresenceScreenControl
(node_helper.js): schedule/window resolver, presence aggregator,
countdown/dimmer timer, screen actuator and state publisher.

External effects are made explicit: each evaluation pass returns the new
helper state together with the list of actuator command invocations it
performed (recorded as the boolean on/off intent, emitted only when the
corresponding command string is configured and non-empty, matching JS
truthiness of `config.onCommand` / `config.offCommand`) and the list of
snapshots it published via `sendPresenceUpdate`.  Wall-clock instants are
passed as explicit parameters; JS Date fields (hours, minutes, seconds,
getDay) become integer fields of `Time`.  The `from`/`to` Date objects
stored in an active always-on window record are not consumed by any
decision logic or by the published snapshot, so the record keeps only its
`total` and `left` fields.
-/

namespace PresenceScreenControl

/-- A JSON value as far as the bus (MQTT) payload handling distinguishes
them: booleans, numbers, strings and null; a missing field is `Option.none`
(JS `undefined`). -/
inductive JVal where
  | jbool (b : Bool)
  | jnum (n : Int)
  | jstr (s : String)
  | jnull
  deriving DecidableEq, Repr

/-- A configured recurring window: `from`/`to` split into hour and minute
(the result of `"HH:MM".split(":").map(Number)` in the source), plus an
optional weekday list (`window.days`, absent meaning no weekday filter). -/
structure Window where
  fromH : Int
  fromM : Int
  toH : Int
  toM : Int
  days : Option (List Int)
  deriving DecidableEq, Repr

/-- A wall-clock sample: the fields of a JS `Date` the resolver reads. -/
structure Time where
  hours : Int
  minutes : Int
  seconds : Int
  day : Int
  deriving DecidableEq, Repr

/-- The stored active always-on window instance (`this.alwaysOnWindow`):
total window length and remaining seconds, as computed by
`getActiveAlwaysOnWindow`. -/
structure ActiveWindow where
  total : Int
  left : Int
  deriving DecidableEq, Repr

/-- The module configuration fields the decision engine reads. -/
structure Config where
  mode : String
  counterTimeout : Int
  autoDimmer : Bool
  autoDimmerTimeout : Int
  onCommand : Option String
  offCommand : Option String
  cronIgnoreWindows : List Window
  cronAlwaysOnWindows : List Window
  mqttPayloadOccupancyField : Option String
  deriving DecidableEq, Repr

/-- The mutable helper state (the `this.*` fields of node_helper.js that
the decision logic reads and writes). -/
structure St where
  presence : Bool
  counter : Int
  dimmed : Bool
  alwaysOn : Bool
  ignoreActive : Bool
  pirPresence : Bool
  mqttPresence : Bool
  touchPresence : Bool
  alwaysOnWindow : Option ActiveWindow
  deriving DecidableEq, Repr

/-- The snapshot object built by `sendPresenceUpdate`; the two optional
fields are present only when attached by the `alwaysOn` branch. -/
structure Payload where
  presence : Bool
  counter : Int
  dimmed : Bool
  alwaysOn : Bool
  ignoreActive : Bool
  alwaysOnTotal : Option Int
  alwaysOnLeft : Option Int
  deriving DecidableEq, Repr

/-- Result of one evaluation pass: new state, actuator invocations
(in order, `true` = onCommand, `false` = offCommand), published snapshots
(in order). -/
structure Out where
  st : St
  cmds : List Bool
  pubs : List Payload
  deriving DecidableEq, Repr

/-- Initial state set in `start`. -/
def initSt : St :=
  { presence := false, counter := 0, dimmed := false, alwaysOn := false,
    ignoreActive := false, pirPresence := false, mqttPresence := false,
    touchPresence := false, alwaysOnWindow := none }

/-- `sendPresenceUpdate`: builds the published snapshot from the current
state; `alwaysOnTotal`/`alwaysOnLeft` are attached only when
`this.alwaysOn && this.alwaysOnWindow` (an object is truthy, null falsy),
and `alwaysOnLeft` is clamped with `Math.max(0, ...)`. -/
def sendPresenceUpdate (st : St) : Payload :=
  match st.alwaysOn, st.alwaysOnWindow with
  | true, some w =>
      { presence := st.presence, counter := st.counter, dimmed := st.dimmed,
        alwaysOn := st.alwaysOn, ignoreActive := st.ignoreActive,
        alwaysOnTotal := some w.total, alwaysOnLeft := some (max 0 w.left) }
  | _, _ =>
      { presence := st.presence, counter := st.counter, dimmed := st.dimmed,
        alwaysOn := st.alwaysOn, ignoreActive := st.ignoreActive,
        alwaysOnTotal := none, alwaysOnLeft := none }

/-- JS truthiness of a configured command string: defined and non-empty. -/
def truthyCmd : Option String → Bool
  | some s => s ≠ ""
  | none => false

/-- The command invocations performed by `updateScreen(on)`: `exec(cmd)`
runs only when the selected command string is truthy. -/
def execCmds (cfg : Config) (onIntent : Bool) : List Bool :=
  if truthyCmd (if onIntent then cfg.onCommand else cfg.offCommand) then [onIntent] else []

/-- `updateScreen(on)`: executes the configured command (if any) and then
calls `sendPresenceUpdate` on the current state. -/
def updateScreen (cfg : Config) (st : St) (onIntent : Bool) : List Bool × List Payload :=
  (execCmds cfg onIntent, [sendPresenceUpdate st])

/-- The presence verdict computed at the top of `updatePresence`:
alwaysOn wins, then ignoreActive forces false, otherwise the mode-selected
sensor signal OR the touch pulse. -/
def computeNewPresence (mode : String) (alwaysOn ignoreActive pirP mqttP touchP : Bool) : Bool :=
  if alwaysOn then true
  else if ignoreActive then false
  else
    let sensorPresence :=
      if mode = "PIR_MQTT" then pirP || mqttP
      else if mode = "PIR" then pirP
      else if mode = "MQTT" then mqttP
      else false
    sensorPresence || touchP

/-- `updatePresence`: recomputes the verdict; on true sets presence,
resets the counter and the dimmed flag, calls `updateScreen(true)` and
restarts the counter; on false just clears presence and restarts the
counter; both branches end with `sendPresenceUpdate`. -/
def updatePresence (cfg : Config) (st : St) : Out :=
  let newPresence := computeNewPresence cfg.mode st.alwaysOn st.ignoreActive
      st.pirPresence st.mqttPresence st.touchPresence
  if newPresence then
    let st1 : St := { st with presence := true, counter := cfg.counterTimeout, dimmed := false }
    let scr := updateScreen cfg st1 true
    { st := st1, cmds := scr.1, pubs := scr.2 ++ [sendPresenceUpdate st1] }
  else
    let st1 : St := { st with presence := false }
    { st := st1, cmds := [], pubs := [sendPresenceUpdate st1] }

/-- One tick of the interval installed by `startCounter`: alwaysOn pins the
screen on every tick, ignoreActive forces it off every tick; otherwise,
without presence, the dimmer edge fires when the counter equals
`autoDimmerTimeout`, expiry (counter already at or below 0) turns the
screen off and resets counter and dimmed, and otherwise the counter
decrements by one; with presence the counter is re-pinned to
`counterTimeout` and dimmed cleared. -/
def counterTick (cfg : Config) (st : St) : Out :=
  if st.alwaysOn = true then
    let st1 : St := { st with dimmed := false }
    let scr := updateScreen cfg st1 true
    { st := st1, cmds := scr.1, pubs := scr.2 ++ [sendPresenceUpdate st1] }
  else if st.ignoreActive = true then
    let st1 : St := { st with dimmed := false }
    let scr := updateScreen cfg st1 false
    { st := st1, cmds := scr.1, pubs := scr.2 ++ [sendPresenceUpdate st1] }
  else if st.presence = false then
    let st1 : St :=
      if cfg.autoDimmer = true ∧ st.dimmed = false ∧ st.counter = cfg.autoDimmerTimeout then
        { st with dimmed := true }
      else st
    if st1.counter ≤ 0 then
      let scr := updateScreen cfg st1 false
      let st2 : St := { st1 with counter := 0, dimmed := false }
      { st := st2, cmds := scr.1, pubs := scr.2 ++ [sendPresenceUpdate st2] }
    else
      let st2 : St := { st1 with counter := st1.counter - 1 }
      { st := st2, cmds := [], pubs := [sendPresenceUpdate st2] }
  else
    { st := { st with counter := cfg.counterTimeout, dimmed := false },
      cmds := [], pubs := [] }

/-- The weekday guard `window.days && !window.days.includes(nowDay)`:
a window with no day list matches every day. -/
def dayOk (w : Window) (nowDay : Int) : Bool :=
  match w.days with
  | some ds => ds.contains nowDay
  | none => true

/-- Minutes-of-day of a window start. -/
def fromMinutes (w : Window) : Int := w.fromH * 60 + w.fromM

/-- Minutes-of-day of a window end. -/
def toMinutes (w : Window) : Int := w.toH * 60 + w.toM

/-- Minutes-of-day of a wall-clock sample. -/
def nowMinutes (t : Time) : Int := t.hours * 60 + t.minutes

/-- The per-window body of the loop in `getActiveAlwaysOnWindow`: the
weekday check uses the current day; a non-wrapping window matches when
`from ≤ now < to`; a wrapping one when `now ≥ from` or `now < to`, with the
matching boundary shifted by a day (1440 minutes) before computing the
instance's `total` and `left`. -/
def alwaysOnMatch (now : Time) (w : Window) : Option ActiveWindow :=
  if dayOk w now.day = false then none
  else
    let fromMin := fromMinutes w
    let toMin := toMinutes w
    let nowMin := nowMinutes now
    if fromMin ≤ toMin then
      if nowMin ≥ fromMin ∧ nowMin < toMin then
        some { total := (toMin - fromMin) * 60,
               left := (toMin - nowMin) * 60 - now.seconds }
      else none
    else
      if nowMin ≥ fromMin ∨ nowMin < toMin then
        if nowMin ≥ fromMin then
          some { total := (toMin + 24 * 60 - fromMin) * 60,
                 left := (toMin + 24 * 60 - nowMin) * 60 - now.seconds }
        else
          some { total := (toMin - (fromMin - 24 * 60)) * 60,
                 left := (toMin - nowMin) * 60 - now.seconds }
      else none

/-- First-match scan over the configured always-on windows. -/
def findAlwaysOnWindow (now : Time) : List Window → Option ActiveWindow
  | [] => none
  | w :: rest =>
    match alwaysOnMatch now w with
    | some info => some info
    | none => findAlwaysOnWindow now rest

/-- `getActiveAlwaysOnWindow(now)`: the first configured always-on window
active at `now`, or null. -/
def getActiveAlwaysOnWindow (cfg : Config) (now : Time) : Option ActiveWindow :=
  findAlwaysOnWindow now cfg.cronAlwaysOnWindows

/-- Membership test of a single window in `isNowInWindow`: weekday check
against the current day, then the non-wrapping or wrapping minute test. -/
def windowActiveNow (now : Time) (w : Window) : Bool :=
  if dayOk w now.day = false then false
  else
    let fromMin := fromMinutes w
    let toMin := toMinutes w
    let nowMin := nowMinutes now
    if fromMin ≤ toMin then decide (nowMin ≥ fromMin ∧ nowMin < toMin)
    else decide (nowMin ≥ fromMin ∨ nowMin < toMin)

/-- `isNowInWindow(windows)`: some window is active at the sampled now. -/
def isNowInWindow (windows : List Window) (now : Time) : Bool :=
  windows.any (windowActiveNow now)

/-- One tick of the interval installed by `startCronMonitor`: recompute
`alwaysOn` from the always-on windows, force `ignoreActive` false whenever
`alwaysOn` holds, store or clear the active window instance, publish. -/
def cronTick (cfg : Config) (now : Time) (st : St) : Out :=
  let alwaysOnInfo := getActiveAlwaysOnWindow cfg now
  let alwaysOn := alwaysOnInfo.isSome
  let ignoreActive := !alwaysOn && isNowInWindow cfg.cronIgnoreWindows now
  let st1 : St := { st with alwaysOn := alwaysOn, ignoreActive := ignoreActive,
                            alwaysOnWindow := if alwaysOn then alwaysOnInfo else none }
  { st := st1, cmds := [], pubs := [sendPresenceUpdate st1] }

/-- The occupancy field name: `config.mqttPayloadOccupancyField || "presence"`
(the empty string is falsy in JS). -/
def occupancyFieldName (cfg : Config) : String :=
  match cfg.mqttPayloadOccupancyField with
  | some f => if f = "" then "presence" else f
  | none => "presence"

/-- Lookup of `payload[field]` in the parsed JSON object. -/
def jsonLookup (field : String) : List (String × JVal) → Option JVal
  | [] => none
  | (k, v) :: rest => if k = field then some v else jsonLookup field rest

/-- The truthiness coercion applied to the occupancy field:
`(typeof occ === "boolean") ? occ : (occ === "1" || occ === 1 || occ === "true")`.
A missing field (undefined) and null both coerce to false. -/
def coerceOccupancy : Option JVal → Bool
  | some (JVal.jbool b) => b
  | some (JVal.jstr s) => s == "1" || s == "true"
  | some (JVal.jnum n) => n == 1
  | some JVal.jnull => false
  | none => false

/-- The MQTT message handler in `startMqtt`: an unparsable message
(`JSON.parse` throws) is caught and only logged, leaving the state
untouched; a parsed message coerces its occupancy field, stores it in
`mqttPresence`, cancels the touch pulse when presence is detected, and
runs `updatePresence`. -/
def mqttMessageStep (cfg : Config) (msg : Option (List (String × JVal))) (st : St) : Out :=
  match msg with
  | none => { st := st, cmds := [], pubs := [] }
  | some payload =>
    let field := occupancyFieldName cfg
    let occ := jsonLookup field payload
    let presence := coerceOccupancy occ
    let st1 : St := { st with mqttPresence := presence,
                              touchPresence := if presence then false else st.touchPresence }
    updatePresence cfg st1

/-- The PIR_DETECTED callback: set the sensor level, cancel the touch
pulse, recompute presence. -/
def pirDetectedStep (cfg : Config) (st : St) : Out :=
  updatePresence cfg { st with pirPresence := true, touchPresence := false }

/-- The PIR_LEFT callback: clear the sensor level, recompute presence. -/
def pirLeftStep (cfg : Config) (st : St) : Out :=
  updatePresence cfg { st with pirPresence := false }

/-- `triggerPresence` (touch click): raise the touch pulse and recompute. -/
def touchClickStep (cfg : Config) (st : St) : Out :=
  updatePresence cfg { st with touchPresence := true }

/-- Expiry of the 100ms touch pulse timer: clear the pulse and recompute. -/
def touchExpireStep (cfg : Config) (st : St) : Out :=
  updatePresence cfg { st with touchPresence := false }

/-- `shutdownScreen` (touch double click): force presence false and the
counter to 0, call `updateScreen(false)`, publish. -/
def shutdownScreenStep (cfg : Config) (st : St) : Out :=
  let st1 : St := { st with presence := false, counter := 0 }
  let scr := updateScreen cfg st1 false
  { st := st1, cmds := scr.1, pubs := scr.2 ++ [sendPresenceUpdate st1] }

/-- The inbound events that trigger an evaluation pass. -/
inductive Ev where
  | counter
  | cron (now : Time)
  | pirDetected
  | pirLeft
  | touchClick
  | touchExpire
  | mqttMsg (msg : Option (List (String × JVal)))
  | touchDblClick
  deriving DecidableEq, Repr

/-- Dispatch one event to its evaluation pass. -/
def step (cfg : Config) (st : St) : Ev → Out
  | Ev.counter => counterTick cfg st
  | Ev.cron now => cronTick cfg now st
  | Ev.pirDetected => pirDetectedStep cfg st
  | Ev.pirLeft => pirLeftStep cfg st
  | Ev.touchClick => touchClickStep cfg st
  | Ev.touchExpire => touchExpireStep cfg st
  | Ev.mqttMsg m => mqttMessageStep cfg m st
  | Ev.touchDblClick => shutdownScreenStep cfg st

/-- Run a sequence of events from a state, concatenating the actuator
invocations and published snapshots of all passes. -/
def run (cfg : Config) (st : St) : List Ev → Out
  | [] => { st := st, cmds := [], pubs := [] }
  | e :: rest =>
    let o := step cfg st e
    let o2 := run cfg o.st rest
    { st := o2.st, cmds := o.cmds ++ o2.cmds, pubs := o.pubs ++ o2.pubs }

/-! Concrete instances used to evaluate the model. -/

/-- An always-on window covering 00:00 to 23:59 on every weekday. -/
def wAll : Window := { fromH := 0, fromM := 0, toH := 23, toM := 59, days := none }

/-- A noon wall-clock sample (Wednesday 12:00:00). -/
def tAll : Time := { hours := 12, minutes := 0, seconds := 0, day := 3 }

/-- The overnight ignore window of spec scenario B:
from 23:00 to 05:00, Mondays only. -/
def wB : Window := { fromH := 23, fromM := 0, toH := 5, toM := 0, days := some [1] }

/-- Monday 23:30:00. -/
def tMon2330 : Time := { hours := 23, minutes := 30, seconds := 0, day := 1 }

/-- Tuesday 04:30:00. -/
def tTue0430 : Time := { hours := 4, minutes := 30, seconds := 0, day := 2 }

/-- Monday 04:30:00. -/
def tMon0430 : Time := { hours := 4, minutes := 30, seconds := 0, day := 1 }

/-- A PIR-mode configuration with both commands set and the all-day
always-on window configured. -/
def cfg7 : Config :=
  { mode := "PIR", counterTimeout := 120, autoDimmer := false, autoDimmerTimeout := 60,
    onCommand := some "on", offCommand := some "off",
    cronIgnoreWindows := [], cronAlwaysOnWindows := [wAll],
    mqttPayloadOccupancyField := none }

/-- Like cfg7 but with the auto dimmer enabled and the dimmer threshold
equal to the full countdown, so the dimmer edge condition holds on the
first tick after presence is lost. -/
def cfg8 : Config :=
  { cfg7 with counterTimeout := 60, autoDimmer := true, autoDimmerTimeout := 60 }

/-- An MQTT-mode configuration (default occupancy field name). -/
def cfg6 : Config := { cfg7 with mode := "MQTT" }

/-- A state whose stored bus presence flag is currently raised. -/
def st6 : St := { initSt with mqttPresence := true }

/-- A state in the middle of a countdown (presence lost, counter at 5). -/
def stC : St := { initSt with counter := 5 }

/-- A state at the dimmer threshold of cfg8 (presence lost, counter 60). -/
def stD : St := { initSt with counter := 60 }

/-- A state pinned by an active always-on window. -/
def stA : St := { initSt with alwaysOn := true }

/-- A state inside an ignore window. -/
def stI : St := { initSt with ignoreActive := true }

/-- A state pinned by an always-on window whose stored instance has
negative remaining seconds. -/
def stW : St :=
  { initSt with alwaysOn := true, alwaysOnWindow := some { total := 5400, left := -3 } }

/-! Spec-side definitions, written from the specification text, to be
compared with the functions embedded from the source. -/

/-- Spec wording for the mode-selected signal: the sensor level for the
sensor-only mode, the bus flag for the bus-only mode, their logical OR
for the combined mode. -/
def specModeSignal (mode : String) (sensor bus : Bool) : Bool :=
  if mode = "PIR" then sensor
  else if mode = "MQTT" then bus
  else sensor || bus

/-- Spec wording for the presence verdict, in priority order: alwaysOn
forces true; else ignoreActive forces false; else mode-selected signal OR
touch pulse. -/
def specVerdict (alwaysOnActive ignoreActive modeSignal touchPulse : Bool) : Bool :=
  if alwaysOnActive then true
  else if ignoreActive then false
  else modeSignal || touchPulse

/-! Invariant definitions for the reachable-state proofs. -/

/-- The schedule flags are never simultaneously raised. -/
def ExclInv (st : St) : Prop := (st.alwaysOn && st.ignoreActive) = false

/-- The countdown counter stays within `[0, counterTimeout]`. -/
def CtrInv (cfg : Config) (st : St) : Prop :=
  0 ≤ st.counter ∧ st.counter ≤ cfg.counterTimeout

/-! Helper lemmas about single passes. -/

theorem sendPresenceUpdate_presence (st : St) : (sendPresenceUpdate st).presence = st.presence := by
  unfold sendPresenceUpdate; split <;> rfl

theorem sendPresenceUpdate_counter (st : St) : (sendPresenceUpdate st).counter = st.counter := by
  unfold sendPresenceUpdate; split <;> rfl

theorem sendPresenceUpdate_alwaysOn (st : St) : (sendPresenceUpdate st).alwaysOn = st.alwaysOn := by
  unfold sendPresenceUpdate; split <;> rfl

theorem updatePresence_alwaysOn (cfg : Config) (st : St) :
    (updatePresence cfg st).st.alwaysOn = st.alwaysOn := by
  simp only [updatePresence]; split <;> rfl

theorem updatePresence_ignoreActive (cfg : Config) (st : St) :
    (updatePresence cfg st).st.ignoreActive = st.ignoreActive := by
  simp only [updatePresence]; split <;> rfl

theorem updatePresence_mqttPresence (cfg : Config) (st : St) :
    (updatePresence cfg st).st.mqttPresence = st.mqttPresence := by
  simp only [updatePresence]; split <;> rfl

theorem updatePresence_presence (cfg : Config) (st : St) :
    (updatePresence cfg st).st.presence =
      computeNewPresence cfg.mode st.alwaysOn st.ignoreActive
        st.pirPresence st.mqttPresence st.touchPresence := by
  simp only [updatePresence]
  split
  · next h => simp [h]
  · next h => simp [Bool.not_eq_true] at h; simp [h]

theorem updatePresence_true_counter (cfg : Config) (st : St) :
    (updatePresence cfg st).st.presence = true →
      (updatePresence cfg st).st.counter = cfg.counterTimeout ∧
      (updatePresence cfg st).st.dimmed = false := by
  simp only [updatePresence]
  split
  · intro _; exact ⟨rfl, rfl⟩
  · intro h; exact absurd h (by simp)

theorem counterTick_alwaysOn_flag (cfg : Config) (st : St) :
    (counterTick cfg st).st.alwaysOn = st.alwaysOn := by
  simp only [counterTick]; split_ifs <;> rfl

theorem counterTick_ignore_flag (cfg : Config) (st : St) :
    (counterTick cfg st).st.ignoreActive = st.ignoreActive := by
  simp only [counterTick]; split_ifs <;> rfl

theorem counterTick_presence_flag (cfg : Config) (st : St) :
    (counterTick cfg st).st.presence = st.presence := by
  simp only [counterTick]; split_ifs <;> rfl

theorem exclInv_updatePresence (cfg : Config) (st : St) (h : ExclInv st) :
    ExclInv (updatePresence cfg st).st := by
  unfold ExclInv at *
  rw [updatePresence_alwaysOn, updatePresence_ignoreActive]
  exact h

theorem exclInv_step (cfg : Config) (st : St) (e : Ev) (h : ExclInv st) :
    ExclInv (step cfg st e).st := by
  cases e with
  | counter =>
      unfold ExclInv at *
      show ((counterTick cfg st).st.alwaysOn && (counterTick cfg st).st.ignoreActive) = false
      rw [counterTick_alwaysOn_flag, counterTick_ignore_flag]; exact h
  | cron now =>
      show ExclInv (cronTick cfg now st).st
      unfold ExclInv
      simp only [cronTick]
      cases hx : (getActiveAlwaysOnWindow cfg now).isSome <;> simp [hx]
  | pirDetected => exact exclInv_updatePresence cfg _ h
  | pirLeft => exact exclInv_updatePresence cfg _ h
  | touchClick => exact exclInv_updatePresence cfg _ h
  | touchExpire => exact exclInv_updatePresence cfg _ h
  | mqttMsg m =>
      cases m with
      | none => exact h
      | some payload => exact exclInv_updatePresence cfg _ h
  | touchDblClick => exact h

theorem exclInv_run (cfg : Config) :
    ∀ (evs : List Ev) (st : St), ExclInv st → ExclInv (run cfg st evs).st := by
  intro evs
  induction evs with
  | nil => intro st h; exact h
  | cons e rest ih => intro st h; exact ih _ (exclInv_step cfg st e h)

theorem ctrInv_updatePresence (cfg : Config) (h : 0 ≤ cfg.counterTimeout)
    (st : St) (hi : CtrInv cfg st) : CtrInv cfg (updatePresence cfg st).st := by
  unfold CtrInv at *
  simp only [updatePresence]
  split
  · exact ⟨h, le_refl _⟩
  · exact hi

theorem ctrInv_counterTick (cfg : Config) (h : 0 ≤ cfg.counterTimeout)
    (st : St) (hi : CtrInv cfg st) : CtrInv cfg (counterTick cfg st).st := by
  unfold CtrInv at *
  obtain ⟨hi1, hi2⟩ := hi
  simp only [counterTick]
  split_ifs <;> constructor <;> simp_all <;> omega

theorem ctrInv_step (cfg : Config) (h : 0 ≤ cfg.counterTimeout)
    (st : St) (e : Ev) (hi : CtrInv cfg st) : CtrInv cfg (step cfg st e).st := by
  cases e with
  | counter => exact ctrInv_counterTick cfg h st hi
  | cron now => exact hi
  | pirDetected => exact ctrInv_updatePresence cfg h _ hi
  | pirLeft => exact ctrInv_updatePresence cfg h _ hi
  | touchClick => exact ctrInv_updatePresence cfg h _ hi
  | touchExpire => exact ctrInv_updatePresence cfg h _ hi
  | mqttMsg m =>
      cases m with
      | none => exact hi
      | some payload => exact ctrInv_updatePresence cfg h _ hi
  | touchDblClick => exact ⟨le_refl 0, h⟩

theorem ctrInv_run (cfg : Config) (h : 0 ≤ cfg.counterTimeout) :
    ∀ (evs : List Ev) (st : St), CtrInv cfg st → CtrInv cfg (run cfg st evs).st := by
  intro evs
  induction evs with
  | nil => intro st hi; exact hi
  | cons e rest ih => intro st hi; exact ih _ (ctrInv_step cfg h st e hi)

theorem presence_becomes_true_state (cfg : Config) (st : St) (e : Ev)
    (hpre : st.presence = false) (hpost : (step cfg st e).st.presence = true) :
    (step cfg st e).st.counter = cfg.counterTimeout ∧ (step cfg st e).st.dimmed = false := by
  cases e with
  | counter =>
      exfalso
      simp only [step] at hpost
      rw [counterTick_presence_flag] at hpost
      simp [hpre] at hpost
  | cron now => exact absurd hpost (by simp [step, cronTick, hpre])
  | pirDetected => exact updatePresence_true_counter cfg _ hpost
  | pirLeft => exact updatePresence_true_counter cfg _ hpost
  | touchClick => exact updatePresence_true_counter cfg _ hpost
  | touchExpire => exact updatePresence_true_counter cfg _ hpost
  | mqttMsg m =>
      cases m with
      | none => exact absurd hpost (by simp [step, mqttMessageStep, hpre])
      | some payload => exact updatePresence_true_counter cfg _ hpost
  | touchDblClick => exact absurd hpost (by simp [step, shutdownScreenStep, updateScreen, hpre])

theorem mem_execCmds (cfg : Config) (b c : Bool) (h : b ∈ execCmds cfg c) : b = c := by
  simp only [execCmds] at h
  split at h <;> simp_all

/-- Claim C4: across every reachable state the resolver never leaves both
alwaysOn and ignoreActive raised, and on any cron pass an active always-on
window forces ignoreActive to false regardless of ignore-window
membership. -/
theorem alwaysOn_ignore_never_both :
    (∀ (cfg : Config) (evs : List Ev),
      ((run cfg initSt evs).st.alwaysOn && (run cfg initSt evs).st.ignoreActive) = false) ∧
    (∀ (cfg : Config) (now : Time) (st : St),
      ((getActiveAlwaysOnWindow cfg now).isSome && (cronTick cfg now st).st.ignoreActive) = false) := by
  constructor
  · intro cfg evs
    exact exclInv_run cfg evs initSt rfl
  · intro cfg now st
    simp only [cronTick]
    cases hx : (getActiveAlwaysOnWindow cfg now).isSome <;> simp [hx]

/-- Claim C5: the verdict of the presence aggregation follows the spec
priority order for each of the three configured modes (alwaysOn wins,
then ignoreActive forces false, else mode-selected signal OR touch), and
the presence stored by an updatePresence pass is exactly that verdict. -/
theorem updatePresence_priority_order :
    (∀ (a i p m t : Bool),
      computeNewPresence "PIR" a i p m t = specVerdict a i (specModeSignal "PIR" p m) t ∧
      computeNewPresence "MQTT" a i p m t = specVerdict a i (specModeSignal "MQTT" p m) t ∧
      computeNewPresence "PIR_MQTT" a i p m t = specVerdict a i (specModeSignal "PIR_MQTT" p m) t) ∧
    (∀ (cfg : Config) (st : St),
      (updatePresence cfg st).st.presence =
        computeNewPresence cfg.mode st.alwaysOn st.ignoreActive
          st.pirPresence st.mqttPresence st.touchPresence) :=
  ⟨by decide, updatePresence_presence⟩

/-- Claim C10: the published snapshot carries the alwaysOnTotal and
alwaysOnLeft fields exactly when alwaysOn is raised and a window instance
is stored, and then alwaysOnLeft is the stored remaining seconds clamped
below at 0, hence never negative. -/
theorem snapshot_alwaysOn_fields :
    ∀ (st : St),
      ((sendPresenceUpdate st).alwaysOnTotal.isSome = (st.alwaysOn && st.alwaysOnWindow.isSome)) ∧
      ((sendPresenceUpdate st).alwaysOnLeft.isSome = (st.alwaysOn && st.alwaysOnWindow.isSome)) ∧
      (∀ w : ActiveWindow, st.alwaysOn = true → st.alwaysOnWindow = some w →
        (sendPresenceUpdate st).alwaysOnTotal = some w.total ∧
        (sendPresenceUpdate st).alwaysOnLeft = some (max 0 w.left) ∧
        (0 : Int) ≤ max 0 w.left) := by
  intro st
  cases hA : st.alwaysOn <;> cases hW : st.alwaysOnWindow <;>
    simp [sendPresenceUpdate, hA, hW, le_max_left]

/-- Claim C9: an updatePresence pass whose verdict is false only clears
the presence flag: counter and dimmed are untouched, no actuator command
runs, and a counter tick emits the off command only during an ignore
window or once the counter has run out with presence lost. -/
theorem updatePresence_false_frame :
    ∀ (cfg : Config) (st : St),
      (computeNewPresence cfg.mode st.alwaysOn st.ignoreActive
          st.pirPresence st.mqttPresence st.touchPresence = false →
        updatePresence cfg st =
          { st := { st with presence := false }, cmds := [],
            pubs := [sendPresenceUpdate { st with presence := false }] }) ∧
      (false ∈ (counterTick cfg st).cmds →
        st.alwaysOn = false ∧ (st.ignoreActive = true ∨ (st.presence = false ∧ st.counter ≤ 0))) := by
  intro cfg st
  constructor
  · intro h
    simp [updatePresence, h]
  · intro hmem
    simp only [counterTick] at hmem
    split_ifs at hmem with h1 h2 h3 h4 h5 h6
    · exact absurd (mem_execCmds cfg false true hmem) (by simp)
    · exact ⟨by simpa using h1, Or.inl h2⟩
    · exact ⟨by simpa using h1, Or.inr ⟨h3, by simpa using h5⟩⟩
    · simp at hmem
    · exact ⟨by simpa using h1, Or.inr ⟨h3, by simpa using h6⟩⟩
    · simp at hmem
    · simp at hmem

/-- Witness for claim C10 at a stored window with negative remaining
seconds: the published field is clamped to 0. -/
theorem snapshot_alwaysOn_fields_witness :
    (sendPresenceUpdate stW).alwaysOnTotal = some 5400 ∧
    (sendPresenceUpdate stW).alwaysOnLeft = some (max 0 (-3 : Int)) ∧
    (0 : Int) ≤ max 0 (-3 : Int) :=
  (snapshot_alwaysOn_fields stW).2.2 { total := 5400, left := -3 } rfl rfl

/-- Witness for claim C9: a false verdict on the initial state leaves
counter and dimmed as they were with no actuator call, and a tick inside
an ignore window does emit the off command under the allowed condition. -/
theorem updatePresence_false_frame_witness :
    (updatePresence cfg7 initSt =
      { st := { initSt with presence := false }, cmds := [],
        pubs := [sendPresenceUpdate { initSt with presence := false }] }) ∧
    (stI.alwaysOn = false ∧ (stI.ignoreActive = true ∨ (stI.presence = false ∧ stI.counter ≤ 0))) :=
  ⟨(updatePresence_false_frame cfg7 initSt).1 (by decide),
   (updatePresence_false_frame cfg7 stI).2 (by decide)⟩

/-- Claim C7 counterexample: after presence is gained and lost the counter
sits at 120 with presence false; once an always-on window activates, the
next countdown tick leaves the counter at 120 instead of decrementing it
by 1, refuting the unconditional per-tick decrement. -/
theorem counter_decrement_counterexample :
    ((run cfg7 initSt [Ev.pirDetected, Ev.pirLeft, Ev.cron tAll]).st.presence = false) ∧
    (0 < (run cfg7 initSt [Ev.pirDetected, Ev.pirLeft, Ev.cron tAll]).st.counter) ∧
    ((step cfg7 (run cfg7 initSt [Ev.pirDetected, Ev.pirLeft, Ev.cron tAll]).st Ev.counter).st.counter =
      (run cfg7 initSt [Ev.pirDetected, Ev.pirLeft, Ev.cron tAll]).st.counter) := by
  decide

/-- Claim C7 amended: in every reachable state the counter stays within
[0, counterTimeout]; a countdown tick with presence false, counter
positive, and neither alwaysOn nor ignoreActive raised decrements it by
exactly 1; and every transition into presence true resets it to
counterTimeout. -/
theorem counter_bounds_and_decrement (cfg : Config) (h : 0 ≤ cfg.counterTimeout) :
    (∀ evs : List Ev,
      0 ≤ (run cfg initSt evs).st.counter ∧
      (run cfg initSt evs).st.counter ≤ cfg.counterTimeout) ∧
    (∀ st : St, st.alwaysOn = false → st.ignoreActive = false → st.presence = false →
      0 < st.counter → (counterTick cfg st).st.counter = st.counter - 1) ∧
    (∀ (st : St) (e : Ev), st.presence = false → (step cfg st e).st.presence = true →
      (step cfg st e).st.counter = cfg.counterTimeout) := by
  refine ⟨?_, ?_, ?_⟩
  · intro evs
    exact ctrInv_run cfg h evs initSt ⟨le_refl 0, h⟩
  · intro st h1 h2 h3 h4
    have hc : ¬(st.counter ≤ 0) := by omega
    simp only [counterTick]
    split_ifs <;> simp_all
  · intro st e hpre hpost
    exact (presence_becomes_true_state cfg st e hpre hpost).1

/-- Witness for claim C7: bounds hold after a concrete event, and a
concrete un-overridden tick decrements 5 to 4. -/
theorem counter_bounds_and_decrement_witness :
    (0 ≤ (run cfg7 initSt [Ev.pirDetected]).st.counter ∧
      (run cfg7 initSt [Ev.pirDetected]).st.counter ≤ cfg7.counterTimeout) ∧
    ((counterTick cfg7 stC).st.counter = stC.counter - 1) :=
  ⟨(counter_bounds_and_decrement cfg7 (by decide)).1 [Ev.pirDetected],
   (counter_bounds_and_decrement cfg7 (by decide)).2.1 stC rfl rfl rfl (by decide)⟩

/-- Claim C8 counterexample: a reachable state with presence false, dimmed
unset, autoDimmer enabled and the counter exactly at autoDimmerTimeout,
on which the countdown tick does not raise dimmed because an always-on
window is active. -/
theorem dimmer_edge_counterexample :
    ((run cfg8 initSt [Ev.pirDetected, Ev.pirLeft, Ev.cron tAll]).st.presence = false) ∧
    ((run cfg8 initSt [Ev.pirDetected, Ev.pirLeft, Ev.cron tAll]).st.dimmed = false) ∧
    ((run cfg8 initSt [Ev.pirDetected, Ev.pirLeft, Ev.cron tAll]).st.counter = cfg8.autoDimmerTimeout) ∧
    (cfg8.autoDimmer = true) ∧
    ((step cfg8 (run cfg8 initSt [Ev.pirDetected, Ev.pirLeft, Ev.cron tAll]).st Ev.counter).st.dimmed = false) := by
  decide

/-- Claim C8 amended: with neither schedule override active, a countdown
tick raises the dimmed flag from false exactly when presence is false,
autoDimmer is enabled and the counter sits at autoDimmerTimeout while
still positive; and dimmed is cleared on every transition into presence
true. -/
theorem dimmer_edge_characterization (cfg : Config) :
    (∀ st : St, st.alwaysOn = false → st.ignoreActive = false → st.dimmed = false →
      ((counterTick cfg st).st.dimmed = true ↔
        (st.presence = false ∧ cfg.autoDimmer = true ∧
         st.counter = cfg.autoDimmerTimeout ∧ 0 < st.counter))) ∧
    (∀ (st : St) (e : Ev), st.presence = false → (step cfg st e).st.presence = true →
      (step cfg st e).st.dimmed = false) := by
  constructor
  · intro st h1 h2 h3
    simp only [counterTick]
    split_ifs <;> simp_all
  · intro st e hpre hpost
    exact (presence_becomes_true_state cfg st e hpre hpost).2

/-- Witness for claim C8: at the dimmer threshold without overrides the
tick raises dimmed, and a presence-gaining event clears it. -/
theorem dimmer_edge_characterization_witness :
    ((counterTick cfg8 stD).st.dimmed = true) ∧
    ((step cfg8 initSt Ev.pirDetected).st.dimmed = false) :=
  ⟨((dimmer_edge_characterization cfg8).1 stD rfl rfl rfl).mpr (by decide),
   (dimmer_edge_characterization cfg8).2 initSt Ev.pirDetected rfl (by decide)⟩

/-- Claim C1 counterexample: two identical sensor-presence events in a row
each execute the configured on command, so the actuator runs twice
consecutively with the same intent. -/
theorem actuator_retrigger_counterexample :
    (run cfg7 initSt [Ev.pirDetected, Ev.pirDetected]).cmds = [true, true] := by
  decide

/-- Claim C1 amended: the actuator is level-triggered, not edge-triggered:
every presence pass whose verdict is true executes the on command, every
counter tick during an always-on window executes the on command, and
every counter tick during an ignore window executes the off command,
independent of what was previously invoked. -/
theorem actuator_level_triggered :
    ∀ (cfg : Config) (st : St),
      (truthyCmd cfg.onCommand = true →
        computeNewPresence cfg.mode st.alwaysOn st.ignoreActive
            st.pirPresence st.mqttPresence st.touchPresence = true →
        (updatePresence cfg st).cmds = [true]) ∧
      (truthyCmd cfg.onCommand = true → st.alwaysOn = true →
        (counterTick cfg st).cmds = [true]) ∧
      (truthyCmd cfg.offCommand = true → st.alwaysOn = false → st.ignoreActive = true →
        (counterTick cfg st).cmds = [false]) := by
  intro cfg st
  refine ⟨?_, ?_, ?_⟩
  · intro ht hv
    simp [updatePresence, hv, updateScreen, execCmds, ht]
  · intro ht hA
    simp [counterTick, hA, updateScreen, execCmds, ht]
  · intro ht hA hI
    simp [counterTick, hA, hI, updateScreen, execCmds, ht]

/-- Witness for claim C1 amended: ticks pinned by an always-on window and
by an ignore window each execute their command. -/
theorem actuator_level_triggered_witness :
    ((counterTick cfg7 stA).cmds = [true]) ∧ ((counterTick cfg7 stI).cmds = [false]) :=
  ⟨(actuator_level_triggered cfg7 stA).2.1 (by decide) rfl,
   (actuator_level_triggered cfg7 stI).2.2 (by decide) rfl rfl⟩

/-- Claim C2 counterexample: the very cron pass that raises alwaysOn on
the initial state publishes a snapshot with alwaysOn true and presence
still false. -/
theorem alwaysOn_presence_counterexample :
    ((cronTick cfg7 tAll initSt).pubs.map Payload.alwaysOn = [true]) ∧
    ((cronTick cfg7 tAll initSt).pubs.map Payload.presence = [false]) := by
  decide

/-- Claim C2 amended: only presence recomputation passes enforce the
implication: when alwaysOn is raised, every snapshot published by an
updatePresence pass carries presence true (cron and counter passes
republish the stored presence, which can still be false). -/
theorem alwaysOn_presence_on_update_pass :
    ∀ (cfg : Config) (st : St), st.alwaysOn = true →
      ((updatePresence cfg st).pubs.all fun q => q.presence) = true := by
  intro cfg st h
  have hv : computeNewPresence cfg.mode st.alwaysOn st.ignoreActive
      st.pirPresence st.mqttPresence st.touchPresence = true := by
    simp [computeNewPresence, h]
  simp [updatePresence, hv, updateScreen, sendPresenceUpdate_presence]

/-- Witness for claim C2 amended: an update pass in an always-on state
publishes only presence-true snapshots. -/
theorem alwaysOn_presence_on_update_pass_witness :
    ((updatePresence cfg7 stA).pubs.all fun q => q.presence) = true :=
  alwaysOn_presence_on_update_pass cfg7 stA rfl

/-- Claim C3 counterexample: the overnight Monday ignore window 23:00 to
05:00 is active Monday 23:30 but NOT active Tuesday 04:30, because the
weekday check is applied to the current day, never to the day the window
started. -/
theorem overnight_weekday_counterexample :
    (toMinutes wB < fromMinutes wB) ∧
    (isNowInWindow [wB] tTue0430 = false) ∧
    (isNowInWindow [wB] tMon2330 = true) ∧
    (isNowInWindow [wB] tMon0430 = true) := by
  decide

/-- Claim C3 amended: a wrapping window (start greater than end) is active
exactly when the CURRENT day's weekday passes the day filter and the
minute of day is at or after start or before end; this holds for the
ignore membership test and for the always-on matcher alike. -/
theorem overnight_window_current_day :
    ∀ (w : Window) (now : Time), toMinutes w < fromMinutes w →
      (windowActiveNow now w =
        (dayOk w now.day &&
          (decide (fromMinutes w ≤ nowMinutes now) || decide (nowMinutes now < toMinutes w)))) ∧
      ((alwaysOnMatch now w).isSome =
        (dayOk w now.day &&
          (decide (fromMinutes w ≤ nowMinutes now) || decide (nowMinutes now < toMinutes w)))) ∧
      (isNowInWindow [w] now = windowActiveNow now w) := by
  intro w now h
  have hn : ¬(fromMinutes w ≤ toMinutes w) := by omega
  refine ⟨?_, ?_, ?_⟩
  · simp only [windowActiveNow]
    split_ifs with hd <;> simp_all [Bool.decide_or]
  · simp only [alwaysOnMatch]
    split_ifs with hd h2 h3 <;> simp_all [Bool.decide_or]
  · simp [isNowInWindow]

/-- Witness for claim C3 amended, instantiated at the scenario-B window
and Tuesday 04:30. -/
theorem overnight_window_current_day_witness :
    (windowActiveNow tTue0430 wB =
      (dayOk wB tTue0430.day &&
        (decide (fromMinutes wB ≤ nowMinutes tTue0430) || decide (nowMinutes tTue0430 < toMinutes wB)))) ∧
    ((alwaysOnMatch tTue0430 wB).isSome =
      (dayOk wB tTue0430.day &&
        (decide (fromMinutes wB ≤ nowMinutes tTue0430) || decide (nowMinutes tTue0430 < toMinutes wB)))) ∧
    (isNowInWindow [wB] tTue0430 = windowActiveNow tTue0430 wB) :=
  overnight_window_current_day wB tTue0430 (by decide)

/-- Claim C6 counterexample: a parsed bus message without the configured
occupancy field is not dropped: it overwrites a previously true
busPresence with false. -/
theorem mqtt_missing_field_counterexample :
    (st6.mqttPresence = true) ∧
    ((mqttMessageStep cfg6 (some [("battery", JVal.jnum 97)]) st6).st.mqttPresence = false) := by
  decide

/-- Claim C6 amended: an unparsable bus message is dropped with the whole
state (including busPresence) retained, but a parsed message whose
occupancy field is missing coerces the missing value to false and stores
false into busPresence. -/
theorem mqtt_malformed_handling :
    ∀ (cfg : Config) (st : St),
      ((mqttMessageStep cfg none st).st = st ∧
       (mqttMessageStep cfg none st).cmds = [] ∧
       (mqttMessageStep cfg none st).pubs = []) ∧
      (∀ payload : List (String × JVal),
        jsonLookup (occupancyFieldName cfg) payload = none →
          (mqttMessageStep cfg (some payload) st).st.mqttPresence = false) := by
  intro cfg st
  constructor
  · exact ⟨rfl, rfl, rfl⟩
  · intro payload h
    simp only [mqttMessageStep, h, coerceOccupancy]
    rw [updatePresence_mqttPresence]

/-- Witness for claim C6 amended at a concrete field-free payload. -/
theorem mqtt_malformed_handling_witness :
    (mqttMessageStep cfg6 (some [("battery", JVal.jnum 97)]) st6).st.mqttPresence = false :=
  (mqtt_malformed_handling cfg6 st6).2 [("battery", JVal.jnum 97)] (by decide)

end PresenceScreenControl
